import Mathlib

/-!
Formal model of the ball-volume measurement programs of this repository
(main.py, fullscreen-main.py, raspi_main.py).  Python floats are modelled
as rationals, embedded into the reals where the constant pi enters a
formula; Python exceptions (ValueError from float() on an unparsable
string, ZeroDivisionError from float division) are modelled by an explicit
error type, since an exception raised inside the key handler of the run
loop aborts the loop.
-/

namespace BallVision

/-- Python runtime errors that the modelled code can raise. -/
inductive PyErr where
  | valueError
  | zeroDivision
  deriving DecidableEq

/-- Python int() on a float value: truncation toward zero. -/
def pyInt (q : ℚ) : ℤ := if 0 ≤ q then ⌊q⌋ else ⌈q⌉

/-- Key events of the run loops.  For keyC and keyD the payload is the
result of parsing the operator's typed line with float(): some value when
the string parses, none when float() raises ValueError. -/
inductive KeyEvent where
  | keyQ
  | keyC (raw : Option ℚ)
  | keyD (raw : Option ℚ)
  | other
  deriving DecidableEq

namespace Main

/-- Instance attributes of BallVolumeMeasurement in main.py that carry
measurement state (the camera handle is omitted): calibration_ratio,
real_diameter and conversion_factor all start out as None. -/
structure BallState where
  calibration_ratio : Option ℚ
  real_diameter : Option ℚ
  conversion_factor : Option ℚ
  deriving DecidableEq

/-- BallVolumeMeasurement.calibrate of main.py: divides pixel_diameter by
real_diameter (ZeroDivisionError when the divisor is zero, in which case
no attribute is assigned) and stores the ratio and the reference
diameter. -/
def calibrate (s : BallState) (pixel_diameter real_diameter : ℚ) :
    Except PyErr BallState :=
  if real_diameter = 0 then .error .zeroDivision
  else .ok { calibration_ratio := some (pixel_diameter / real_diameter)
             real_diameter := some real_diameter
             conversion_factor := s.conversion_factor }

/-- Tail of BallVolumeMeasurement.detect_ball of main.py: the candidate
list returned by the Hough transform (empty list standing for None), from
which the first-ranked candidate is taken and its coordinates and radius
are passed through int(). -/
def detect_ball (circles : List (ℚ × ℚ × ℚ)) : Option (ℤ × ℤ × ℤ) :=
  match circles with
  | [] => none
  | (x, y, r) :: _ => some (pyInt x, pyInt y, pyInt r)

/-- BallVolumeMeasurement.calculate_volume of main.py: None when
calibration_ratio is None; otherwise diameter_mm = pixel_diameter /
calibration_ratio (ZeroDivisionError when the ratio is zero), radius_cm =
(diameter_mm / 2) / 10, volume = (4/3) * pi * radius_cm ** 3. -/
noncomputable def calculate_volume (s : BallState) (pixel_diameter : ℚ) :
    Except PyErr (Option ℝ) :=
  match s.calibration_ratio with
  | none => .ok none
  | some k =>
    if k = 0 then .error .zeroDivision
    else
      let diameter_mm : ℝ := (pixel_diameter : ℝ) / (k : ℝ)
      let radius_cm : ℝ := diameter_mm / 2 / 10
      .ok (some ((4 / 3) * Real.pi * radius_cm ^ 3))

/-- BallVolumeMeasurement.calculate_volumetric_weight of main.py: None
when the volume is None or conversion_factor is None, otherwise the
product. -/
noncomputable def calculate_volumetric_weight (s : BallState)
    (volume : Option ℝ) : Option ℝ :=
  match volume, s.conversion_factor with
  | none, _ => none
  | some _, none => none
  | some v, some f => some (v * (f : ℝ))

/-- State of the run loop of main.py: the object attributes together with
the local flags calibration_done and factor_set. -/
structure LoopState where
  obj : BallState
  calibration_done : Bool
  factor_set : Bool
  deriving DecidableEq

/-- Loop state at entry of BallVolumeMeasurement.run in main.py. -/
def initState : LoopState :=
  { obj := { calibration_ratio := none
             real_diameter := none
             conversion_factor := none }
    calibration_done := false
    factor_set := false }

/-- Key handler at the bottom of the run loop of main.py, given the circle
detected in the current frame.  Key c fires only when a circle is present
and calibration is not done; it parses the typed diameter (ValueError
propagates) and calls calibrate with twice the detected radius.  Key d
fires only when calibration is done and the factor not yet set; it parses
the typed factor and assigns conversion_factor.  All other keys leave the
state unchanged. -/
def step (s : LoopState) (circle : Option (ℤ × ℤ × ℤ)) (e : KeyEvent) :
    Except PyErr LoopState :=
  match e, circle with
  | .keyC raw, some (_x, _y, r) =>
    if s.calibration_done then .ok s
    else
      match raw with
      | none => .error .valueError
      | some rd =>
        match calibrate s.obj (2 * (r : ℚ)) rd with
        | .error err => .error err
        | .ok obj2 =>
          .ok { obj := obj2, calibration_done := true
                factor_set := s.factor_set }
  | .keyC _, none => .ok s
  | .keyD raw, _ =>
    if s.calibration_done = true ∧ s.factor_set = false then
      match raw with
      | none => .error .valueError
      | some cf =>
        .ok { obj := { calibration_ratio := s.obj.calibration_ratio
                       real_diameter := s.obj.real_diameter
                       conversion_factor := some cf }
              calibration_done := s.calibration_done
              factor_set := true }
    else .ok s
  | .keyQ, _ => .ok s
  | .other, _ => .ok s

/-- Iterated key handling over a list of (detected circle, key) pairs, one
pair per loop iteration; an exception aborts the loop. -/
def run_events (s : LoopState) :
    List (Option (ℤ × ℤ × ℤ) × KeyEvent) → Except PyErr LoopState
  | [] => .ok s
  | (c, e) :: rest =>
    match step s c e with
    | .error err => .error err
    | .ok s2 => run_events s2 rest

/-- Invariant of the run loop of main.py: the ratio is set exactly when
the calibration_done flag is up, a set conversion factor implies the
factor_set flag, and the factor_set flag implies the calibration_done
flag. -/
def Inv (s : LoopState) : Prop :=
  s.obj.calibration_ratio.isSome = s.calibration_done
  ∧ (s.obj.conversion_factor.isSome = true → s.factor_set = true)
  ∧ (s.factor_set = true → s.calibration_done = true)

end Main

namespace Fullscreen

/-- Measurement attributes of BallVolumeMeasurement in fullscreen-main.py
(the camera handle and screen geometry are omitted): calibration_ratio and
real_diameter start out as None; this variant has no conversion factor. -/
structure BallState where
  calibration_ratio : Option ℚ
  real_diameter : Option ℚ
  deriving DecidableEq

/-- BallVolumeMeasurement.calibrate of fullscreen-main.py. -/
def calibrate (_s : BallState) (pixel_diameter real_diameter : ℚ) :
    Except PyErr BallState :=
  if real_diameter = 0 then .error .zeroDivision
  else .ok { calibration_ratio := some (pixel_diameter / real_diameter)
             real_diameter := some real_diameter }

/-- BallVolumeMeasurement.calculate_volume of fullscreen-main.py,
identical in text to the one of main.py. -/
noncomputable def calculate_volume (s : BallState) (pixel_diameter : ℚ) :
    Except PyErr (Option ℝ) :=
  match s.calibration_ratio with
  | none => .ok none
  | some k =>
    if k = 0 then .error .zeroDivision
    else
      let diameter_mm : ℝ := (pixel_diameter : ℝ) / (k : ℝ)
      let radius_cm : ℝ := diameter_mm / 2 / 10
      .ok (some ((4 / 3) * Real.pi * radius_cm ^ 3))

/-- State of the run loop of fullscreen-main.py: the object attributes
together with the local calibration_done flag (this loop has no factor
key). -/
structure LoopState where
  obj : BallState
  calibration_done : Bool
  deriving DecidableEq

/-- Loop state at entry of BallVolumeMeasurement.run in
fullscreen-main.py. -/
def initState : LoopState :=
  { obj := { calibration_ratio := none, real_diameter := none }
    calibration_done := false }

/-- Key handler at the bottom of the run loop of fullscreen-main.py: only
key c acts, and only when a circle is present and calibration is not
done. -/
def step (s : LoopState) (circle : Option (ℤ × ℤ × ℤ)) (e : KeyEvent) :
    Except PyErr LoopState :=
  match e, circle with
  | .keyC raw, some (_x, _y, r) =>
    if s.calibration_done then .ok s
    else
      match raw with
      | none => .error .valueError
      | some rd =>
        match calibrate s.obj (2 * (r : ℚ)) rd with
        | .error err => .error err
        | .ok obj2 => .ok { obj := obj2, calibration_done := true }
  | .keyC _, none => .ok s
  | .keyQ, _ => .ok s
  | .keyD _, _ => .ok s
  | .other, _ => .ok s

/-- Iterated key handling for the fullscreen-main.py loop. -/
def run_events (s : LoopState) :
    List (Option (ℤ × ℤ × ℤ) × KeyEvent) → Except PyErr LoopState
  | [] => .ok s
  | (c, e) :: rest =>
    match step s c e with
    | .error err => .error err
    | .ok s2 => run_events s2 rest

/-- In the fullscreen-main.py loop the ratio is set exactly when the
calibration_done flag is up. -/
def Inv (s : LoopState) : Prop :=
  s.obj.calibration_ratio.isSome = s.calibration_done

end Fullscreen

namespace Raspi

/-- Measurement attributes of BallVolumeMeasurement in raspi_main.py (the
camera and LCD handles are omitted): the calibration ratio and the
conversion factor are plain numbers preset in the constructor, never
None. -/
structure BallState where
  calibration_ratio : ℚ
  conversion_factor : ℚ
  deriving DecidableEq

/-- BallVolumeMeasurement.__init__ of raspi_main.py: static
calibration_ratio 3.14 and conversion_factor 9.0. -/
def initState : BallState :=
  { calibration_ratio := 3.14, conversion_factor := 9 }

/-- BallVolumeMeasurement.calculate_volume of raspi_main.py: no None
check, the same arithmetic as the other variants. -/
noncomputable def calculate_volume (s : BallState) (pixel_diameter : ℚ) :
    Except PyErr ℝ :=
  if s.calibration_ratio = 0 then .error .zeroDivision
  else
    let diameter_mm : ℝ := (pixel_diameter : ℝ) / (s.calibration_ratio : ℝ)
    let radius_cm : ℝ := diameter_mm / 2 / 10
    .ok ((4 / 3) * Real.pi * radius_cm ^ 3)

/-- BallVolumeMeasurement.calculate_volumetric_weight of raspi_main.py:
unconditional product. -/
noncomputable def calculate_volumetric_weight (s : BallState)
    (volume : ℝ) : ℝ :=
  volume * (s.conversion_factor : ℝ)

end Raspi

/-! Helper lemmas about the main.py run loop. -/

theorem main_inv_initState : Main.Inv Main.initState := by
  refine ⟨rfl, ?_, ?_⟩ <;> intro h <;> simp [Main.initState] at h

theorem main_step_ok_inv {s s' : Main.LoopState} {c : Option (ℤ × ℤ × ℤ)}
    {e : KeyEvent} (hInv : Main.Inv s) (h : Main.step s c e = .ok s') :
    Main.Inv s' := by
  obtain ⟨h1, h2, h3⟩ := hInv
  cases e with
  | keyQ =>
    simp only [Main.step] at h
    cases h
    exact ⟨h1, h2, h3⟩
  | other =>
    simp only [Main.step] at h
    cases h
    exact ⟨h1, h2, h3⟩
  | keyC raw =>
    cases c with
    | none =>
      simp only [Main.step] at h
      cases h
      exact ⟨h1, h2, h3⟩
    | some t =>
      obtain ⟨x, y, r⟩ := t
      by_cases hd : s.calibration_done
      · simp only [Main.step, if_pos hd] at h
        cases h
        exact ⟨h1, h2, h3⟩
      · cases raw with
        | none => simp [Main.step, hd] at h
        | some rd =>
          by_cases hrd : rd = 0
          · simp [Main.step, hd, Main.calibrate, hrd] at h
          · simp only [Main.step, if_neg hd, Main.calibrate,
              if_neg hrd] at h
            cases h
            exact ⟨rfl, fun hc => h2 hc, fun _ => rfl⟩
  | keyD raw =>
    by_cases hg : s.calibration_done = true ∧ s.factor_set = false
    · cases raw with
      | none => simp [Main.step, hg] at h
      | some cf =>
        simp only [Main.step, if_pos hg] at h
        cases h
        exact ⟨h1, fun _ => rfl, fun _ => hg.1⟩
    · simp only [Main.step, if_neg hg] at h
      cases h
      exact ⟨h1, h2, h3⟩

theorem main_run_events_ok_inv {s s' : Main.LoopState}
    {evs : List (Option (ℤ × ℤ × ℤ) × KeyEvent)} (hInv : Main.Inv s)
    (h : Main.run_events s evs = .ok s') : Main.Inv s' := by
  induction evs generalizing s with
  | nil =>
    simp only [Main.run_events] at h
    cases h
    exact hInv
  | cons p rest ih =>
    obtain ⟨c, e⟩ := p
    simp only [Main.run_events] at h
    cases hs : Main.step s c e with
    | error err => rw [hs] at h; cases h
    | ok s2 => rw [hs] at h; exact ih (main_step_ok_inv hInv hs) h

/-- Once the calibration_done flag is up, a single key event of the
main.py loop preserves the ratio and the flag. -/
theorem main_step_ok_done_ratio {s s' : Main.LoopState}
    {c : Option (ℤ × ℤ × ℤ)} {e : KeyEvent}
    (hd : s.calibration_done = true) (h : Main.step s c e = .ok s') :
    s'.obj.calibration_ratio = s.obj.calibration_ratio
      ∧ s'.calibration_done = true := by
  cases e with
  | keyQ => simp only [Main.step] at h; cases h; exact ⟨rfl, hd⟩
  | other => simp only [Main.step] at h; cases h; exact ⟨rfl, hd⟩
  | keyC raw =>
    cases c with
    | none => simp only [Main.step] at h; cases h; exact ⟨rfl, hd⟩
    | some t =>
      obtain ⟨x, y, r⟩ := t
      simp only [Main.step, hd, if_pos] at h
      cases h
      exact ⟨rfl, hd⟩
  | keyD raw =>
    by_cases hg : s.calibration_done = true ∧ s.factor_set = false
    · cases raw with
      | none => simp [Main.step, hg] at h
      | some cf =>
        simp only [Main.step, if_pos hg] at h
        cases h
        exact ⟨rfl, hd⟩
    · simp only [Main.step, if_neg hg] at h
      cases h
      exact ⟨rfl, hd⟩

theorem main_run_events_ok_done_ratio {s s' : Main.LoopState}
    {evs : List (Option (ℤ × ℤ × ℤ) × KeyEvent)}
    (hd : s.calibration_done = true)
    (h : Main.run_events s evs = .ok s') :
    s'.obj.calibration_ratio = s.obj.calibration_ratio
      ∧ s'.calibration_done = true := by
  induction evs generalizing s with
  | nil =>
    simp only [Main.run_events] at h
    cases h
    exact ⟨rfl, hd⟩
  | cons p rest ih =>
    obtain ⟨c, e⟩ := p
    simp only [Main.run_events] at h
    cases hs : Main.step s c e with
    | error err => rw [hs] at h; cases h
    | ok s2 =>
      rw [hs] at h
      obtain ⟨hr, hd2⟩ := main_step_ok_done_ratio hd hs
      obtain ⟨hr2, hd3⟩ := ih hd2 h
      exact ⟨hr2.trans hr, hd3⟩

/-! Helper lemmas about the fullscreen-main.py run loop. -/

theorem fs_step_ok_done_ratio {s s' : Fullscreen.LoopState}
    {c : Option (ℤ × ℤ × ℤ)} {e : KeyEvent}
    (hd : s.calibration_done = true) (h : Fullscreen.step s c e = .ok s') :
    s'.obj.calibration_ratio = s.obj.calibration_ratio
      ∧ s'.calibration_done = true := by
  cases e with
  | keyQ => simp only [Fullscreen.step] at h; cases h; exact ⟨rfl, hd⟩
  | keyD raw => simp only [Fullscreen.step] at h; cases h; exact ⟨rfl, hd⟩
  | other => simp only [Fullscreen.step] at h; cases h; exact ⟨rfl, hd⟩
  | keyC raw =>
    cases c with
    | none => simp only [Fullscreen.step] at h; cases h; exact ⟨rfl, hd⟩
    | some t =>
      obtain ⟨x, y, r⟩ := t
      simp only [Fullscreen.step, hd, if_pos] at h
      cases h
      exact ⟨rfl, hd⟩

theorem fs_run_events_ok_done_ratio {s s' : Fullscreen.LoopState}
    {evs : List (Option (ℤ × ℤ × ℤ) × KeyEvent)}
    (hd : s.calibration_done = true)
    (h : Fullscreen.run_events s evs = .ok s') :
    s'.obj.calibration_ratio = s.obj.calibration_ratio
      ∧ s'.calibration_done = true := by
  induction evs generalizing s with
  | nil =>
    simp only [Fullscreen.run_events] at h
    cases h
    exact ⟨rfl, hd⟩
  | cons p rest ih =>
    obtain ⟨c, e⟩ := p
    simp only [Fullscreen.run_events] at h
    cases hs : Fullscreen.step s c e with
    | error err => rw [hs] at h; cases h
    | ok s2 =>
      rw [hs] at h
      obtain ⟨hr, hd2⟩ := fs_step_ok_done_ratio hd hs
      obtain ⟨hr2, hd3⟩ := ih hd2 h
      exact ⟨hr2.trans hr, hd3⟩

theorem fs_step_ok_inv {s s' : Fullscreen.LoopState}
    {c : Option (ℤ × ℤ × ℤ)} {e : KeyEvent} (hInv : Fullscreen.Inv s)
    (h : Fullscreen.step s c e = .ok s') : Fullscreen.Inv s' := by
  cases e with
  | keyQ => simp only [Fullscreen.step] at h; cases h; exact hInv
  | keyD raw => simp only [Fullscreen.step] at h; cases h; exact hInv
  | other => simp only [Fullscreen.step] at h; cases h; exact hInv
  | keyC raw =>
    cases c with
    | none => simp only [Fullscreen.step] at h; cases h; exact hInv
    | some t =>
      obtain ⟨x, y, r⟩ := t
      by_cases hd : s.calibration_done
      · simp only [Fullscreen.step, if_pos hd] at h
        cases h
        exact hInv
      · cases raw with
        | none => simp [Fullscreen.step, hd] at h
        | some rd =>
          by_cases hrd : rd = 0
          · simp [Fullscreen.step, hd, Fullscreen.calibrate, hrd] at h
          · simp only [Fullscreen.step, if_neg hd, Fullscreen.calibrate,
              if_neg hrd] at h
            cases h
            exact rfl

theorem fs_run_events_ok_inv {s s' : Fullscreen.LoopState}
    {evs : List (Option (ℤ × ℤ × ℤ) × KeyEvent)} (hInv : Fullscreen.Inv s)
    (h : Fullscreen.run_events s evs = .ok s') : Fullscreen.Inv s' := by
  induction evs generalizing s with
  | nil =>
    simp only [Fullscreen.run_events] at h
    cases h
    exact hInv
  | cons p rest ih =>
    obtain ⟨c, e⟩ := p
    simp only [Fullscreen.run_events] at h
    cases hs : Fullscreen.step s c e with
    | error err => rw [hs] at h; cases h
    | ok s2 => rw [hs] at h; exact ih (fs_step_ok_inv hInv hs) h

/-! The claims. -/

/-- Claim C1: a calibration key event handled while a circle with pixel
radius r is detected, from a state where calibration has not yet been
done, with an operator-supplied real diameter m > 0, succeeds and leaves
the calibration ratio equal to 2 * r / m. -/
theorem C1_calibration_sets_ratio (s : Main.LoopState) (x y r : ℤ)
    (m : ℚ) (hdone : s.calibration_done = false) (hm : 0 < m) :
    ∃ s', Main.step s (some (x, y, r)) (.keyC (some m)) = .ok s'
      ∧ s'.obj.calibration_ratio = some (2 * (r : ℚ) / m) := by
  have h : Main.step s (some (x, y, r)) (.keyC (some m)) =
      .ok { obj := { calibration_ratio := some (2 * (r : ℚ) / m)
                     real_diameter := some m
                     conversion_factor := s.obj.conversion_factor }
            calibration_done := true
            factor_set := s.factor_set } := by
    simp [Main.step, hdone, Main.calibrate, hm.ne']
  exact ⟨_, h, rfl⟩

/-- Witness for C1 at a concrete input: radius 100 px, real diameter
60 mm, giving ratio 200 / 60. -/
theorem C1_calibration_sets_ratio_witness :
    ∃ s', Main.step Main.initState (some (320, 240, 100))
        (.keyC (some 60)) = .ok s'
      ∧ s'.obj.calibration_ratio = some (2 * ((100 : ℤ) : ℚ) / 60) :=
  C1_calibration_sets_ratio Main.initState 320 240 100 60 rfl
    (by norm_num)

/-- Claim C2: with the calibration ratio set to k (necessarily nonzero,
as every ratio the program stores is a quotient with nonzero numerator),
calculate_volume of main.py returns (4/3) * pi * ((d / k / 2 / 10) ^ 3)
for pixel diameter d. -/
theorem C2_volume_formula (s : Main.BallState) (d k : ℚ)
    (hk : s.calibration_ratio = some k) (h0 : k ≠ 0) :
    Main.calculate_volume s d =
      .ok (some ((4 / 3) * Real.pi
        * (((d : ℝ) / (k : ℝ) / 2 / 10) ^ 3))) := by
  simp [Main.calculate_volume, hk, h0]

/-- Witness for C2 at a concrete input: ratio 2, pixel diameter 4. -/
theorem C2_volume_formula_witness :
    Main.calculate_volume
        { calibration_ratio := some 2, real_diameter := none
          conversion_factor := none } 4 =
      .ok (some ((4 / 3) * Real.pi
        * ((((4 : ℚ) : ℝ) / ((2 : ℚ) : ℝ) / 2 / 10) ^ 3))) :=
  C2_volume_formula _ 4 2 rfl (by norm_num)

/-- Claim C3: calculate_volume of main.py returns None exactly when
calibration_ratio is None (when the ratio is set it returns a volume, or
raises ZeroDivisionError on the unreachable ratio 0 - in no case None). -/
theorem C3_volume_none_iff (s : Main.BallState) (d : ℚ) :
    Main.calculate_volume s d = .ok none ↔ s.calibration_ratio = none := by
  cases hk : s.calibration_ratio with
  | none => simp [Main.calculate_volume, hk]
  | some k =>
    by_cases h0 : k = 0
    · simp [Main.calculate_volume, hk, h0]
    · simp [Main.calculate_volume, hk, h0]

/-- Claim C4 counterexample: the run loop of main.py performs no
validation of the operator-supplied number.  From the uncalibrated
initial state, with a circle of radius 50 px detected, a calibrate action
supplying -5 is accepted: the state mutates (ratio set to 100 / -5 = -20,
reference diameter -5, calibration flag up), where the claim requires the
action to be rejected with the state unchanged. -/
theorem C4_counterexample :
    Main.step Main.initState (some (0, 0, 50)) (.keyC (some (-5))) =
      .ok { obj := { calibration_ratio := some (-20)
                     real_diameter := some (-5)
                     conversion_factor := none }
            calibration_done := true
            factor_set := false }
    ∧ ({ obj := { calibration_ratio := some (-20)
                  real_diameter := some (-5)
                  conversion_factor := none }
         calibration_done := true
         factor_set := false } : Main.LoopState) ≠ Main.initState := by
  constructor
  · norm_num [Main.step, Main.initState, Main.calibrate]
  · simp [Main.initState]

/-- Claim C4 as amended: the run loop of main.py applies any parsable
nonzero calibrate value and any parsable density factor, positive or not,
mutating the state; a zero calibrate value raises ZeroDivisionError and
an unparsable input to either action raises ValueError, all propagating
out of the key handler. -/
theorem C4_no_input_validation (s : Main.LoopState) (x y r : ℤ)
    (m f : ℚ) (c : Option (ℤ × ℤ × ℤ)) (s2 : Main.LoopState)
    (hdone : s.calibration_done = false) (hm : m ≠ 0)
    (hd2 : s2.calibration_done = true) (hf2 : s2.factor_set = false) :
    (∃ s', Main.step s (some (x, y, r)) (.keyC (some m)) = .ok s'
      ∧ s'.obj.calibration_ratio = some (2 * (r : ℚ) / m)
      ∧ s'.calibration_done = true)
    ∧ Main.step s (some (x, y, r)) (.keyC (some 0))
        = .error .zeroDivision
    ∧ Main.step s (some (x, y, r)) (.keyC none) = .error .valueError
    ∧ (∃ s', Main.step s2 c (.keyD (some f)) = .ok s'
      ∧ s'.obj.conversion_factor = some f
      ∧ s'.factor_set = true)
    ∧ Main.step s2 c (.keyD none) = .error .valueError := by
  refine ⟨?_, ?_, ?_, ?_, ?_⟩
  · have h : Main.step s (some (x, y, r)) (.keyC (some m)) =
        .ok { obj := { calibration_ratio := some (2 * (r : ℚ) / m)
                       real_diameter := some m
                       conversion_factor := s.obj.conversion_factor }
              calibration_done := true
              factor_set := s.factor_set } := by
      simp [Main.step, hdone, Main.calibrate, hm]
    exact ⟨_, h, rfl, rfl⟩
  · simp [Main.step, hdone, Main.calibrate]
  · simp [Main.step, hdone]
  · have h : Main.step s2 c (.keyD (some f)) =
        .ok { obj := { calibration_ratio := s2.obj.calibration_ratio
                       real_diameter := s2.obj.real_diameter
                       conversion_factor := some f }
              calibration_done := s2.calibration_done
              factor_set := true } := by
      simp [Main.step, hd2, hf2]
    exact ⟨_, h, rfl, rfl⟩
  · simp [Main.step, hd2, hf2]

/-- Witness for the amended C4 at concrete inputs: the negative diameter
-5 is accepted and mutates the state, diameter 0 raises, an unparsable
diameter raises, the negative factor -7 is accepted from the calibrated
state reached by the first action, and an unparsable factor raises. -/
theorem C4_no_input_validation_witness :
    (∃ s', Main.step Main.initState (some (0, 0, 50))
        (.keyC (some (-5))) = .ok s'
      ∧ s'.obj.calibration_ratio = some (2 * ((50 : ℤ) : ℚ) / (-5))
      ∧ s'.calibration_done = true)
    ∧ Main.step Main.initState (some (0, 0, 50)) (.keyC (some 0))
        = .error .zeroDivision
    ∧ Main.step Main.initState (some (0, 0, 50)) (.keyC none)
        = .error .valueError
    ∧ (∃ s', Main.step
          { obj := { calibration_ratio := some (-20)
                     real_diameter := some (-5)
                     conversion_factor := none }
            calibration_done := true
            factor_set := false } none (.keyD (some (-7))) = .ok s'
      ∧ s'.obj.conversion_factor = some (-7)
      ∧ s'.factor_set = true)
    ∧ Main.step
        { obj := { calibration_ratio := some (-20)
                   real_diameter := some (-5)
                   conversion_factor := none }
          calibration_done := true
          factor_set := false } none (.keyD none) = .error .valueError :=
  C4_no_input_validation Main.initState 0 0 50 (-5) (-7) none
    { obj := { calibration_ratio := some (-20)
               real_diameter := some (-5)
               conversion_factor := none }
      calibration_done := true
      factor_set := false } rfl (by norm_num) rfl rfl

/-- Claim C5: in every state reachable by the run loop of main.py from
its initial state, a set conversion factor implies a set calibration
ratio; no sequence of key events sets the factor while the ratio is
unset. -/
theorem C5_density_requires_calibration
    (evs : List (Option (ℤ × ℤ × ℤ) × KeyEvent)) (s' : Main.LoopState)
    (h : Main.run_events Main.initState evs = .ok s')
    (hcf : s'.obj.conversion_factor.isSome = true) :
    s'.obj.calibration_ratio.isSome = true := by
  obtain ⟨h1, h2, h3⟩ := main_run_events_ok_inv main_inv_initState h
  rw [h1]
  exact h3 (h2 hcf)

/-- Witness for C5: the reachable state after calibrating with 60 mm at
radius 50 px and then setting factor 9 has the ratio set. -/
theorem C5_density_requires_calibration_witness :
    ({ obj := { calibration_ratio := some (5 / 3)
                real_diameter := some 60
                conversion_factor := some 9 }
       calibration_done := true
       factor_set := true } :
      Main.LoopState).obj.calibration_ratio.isSome = true :=
  C5_density_requires_calibration
    [(some (0, 0, 50), .keyC (some 60)), (none, .keyD (some 9))] _
    (by norm_num [Main.run_events, Main.step, Main.initState,
      Main.calibrate])
    (by norm_num)

/-- Claim C6: in both interactive variants (main.py and
fullscreen-main.py), once the calibration ratio holds a value in a
reachable loop state, every further sequence of key events that the loop
survives leaves that value unchanged. -/
theorem C6_ratio_immutable :
    (∀ (evs1 : List (Option (ℤ × ℤ × ℤ) × KeyEvent))
        (s1 : Main.LoopState) (v : ℚ),
      Main.run_events Main.initState evs1 = .ok s1 →
      s1.obj.calibration_ratio = some v →
      ∀ (evs2 : List (Option (ℤ × ℤ × ℤ) × KeyEvent))
          (s2 : Main.LoopState),
        Main.run_events s1 evs2 = .ok s2 →
        s2.obj.calibration_ratio = some v)
    ∧ (∀ (evs1 : List (Option (ℤ × ℤ × ℤ) × KeyEvent))
        (s1 : Fullscreen.LoopState) (v : ℚ),
      Fullscreen.run_events Fullscreen.initState evs1 = .ok s1 →
      s1.obj.calibration_ratio = some v →
      ∀ (evs2 : List (Option (ℤ × ℤ × ℤ) × KeyEvent))
          (s2 : Fullscreen.LoopState),
        Fullscreen.run_events s1 evs2 = .ok s2 →
        s2.obj.calibration_ratio = some v) := by
  constructor
  · intro evs1 s1 v h1 hv evs2 s2 h2
    have hInv := main_run_events_ok_inv main_inv_initState h1
    have hd : s1.calibration_done = true := by
      rw [← hInv.1, hv]
      rfl
    rw [(main_run_events_ok_done_ratio hd h2).1, hv]
  · intro evs1 s1 v h1 hv evs2 s2 h2
    have hInv := fs_run_events_ok_inv (s := Fullscreen.initState) rfl h1
    have hd : s1.calibration_done = true := by
      rw [← hInv, hv]
      rfl
    rw [(fs_run_events_ok_done_ratio hd h2).1, hv]

/-- Witness for C6: in both variants, after calibrating with 60 mm at
radius 50 px, a further calibrate attempt at radius 80 px leaves the
ratio at 5/3. -/
theorem C6_ratio_immutable_witness :
    ({ obj := { calibration_ratio := some (5 / 3)
                real_diameter := some 60
                conversion_factor := none }
       calibration_done := true
       factor_set := false } :
      Main.LoopState).obj.calibration_ratio = some (5 / 3)
    ∧ ({ obj := { calibration_ratio := some (5 / 3)
                  real_diameter := some 60 }
         calibration_done := true } :
        Fullscreen.LoopState).obj.calibration_ratio = some (5 / 3) :=
  ⟨C6_ratio_immutable.1 [(some (0, 0, 50), .keyC (some 60))]
      { obj := { calibration_ratio := some (5 / 3)
                 real_diameter := some 60
                 conversion_factor := none }
        calibration_done := true
        factor_set := false } (5 / 3)
      (by norm_num [Main.run_events, Main.step, Main.initState,
        Main.calibrate])
      rfl
      [(some (0, 0, 80), .keyC (some 10))] _
      (by norm_num [Main.run_events, Main.step]),
    C6_ratio_immutable.2 [(some (0, 0, 50), .keyC (some 60))]
      { obj := { calibration_ratio := some (5 / 3)
                 real_diameter := some 60 }
        calibration_done := true } (5 / 3)
      (by norm_num [Fullscreen.run_events, Fullscreen.step,
        Fullscreen.initState, Fullscreen.calibrate])
      rfl
      [(some (0, 0, 80), .keyC (some 10))] _
      (by norm_num [Fullscreen.run_events, Fullscreen.step])⟩

/-- Claim C7 counterexample: detect_ball of main.py truncates rather than
rounds.  For a transform candidate at center (100.5, 200.5) with radius
10.7, the detector returns (100, 200, 10), but the nearest whole pixel to
radius 10.7 is 11. -/
theorem C7_counterexample :
    Main.detect_ball [(201 / 2, 401 / 2, 107 / 10)] = some (100, 200, 10)
    ∧ round ((107 : ℚ) / 10) = 11 ∧ (10 : ℤ) ≠ 11 := by
  refine ⟨?_, ?_, ?_⟩
  · norm_num [Main.detect_ball, pyInt]
  · norm_num [round_eq]
  · norm_num

/-- Claim C7 as amended: for a first-ranked candidate with nonnegative
coordinates and radius (as the transform produces), the detector returns
each component truncated with int(), i.e. its floor, not its nearest
whole pixel. -/
theorem C7_detect_truncates (x y r : ℚ) (rest : List (ℚ × ℚ × ℚ))
    (hx : 0 ≤ x) (hy : 0 ≤ y) (hr : 0 ≤ r) :
    Main.detect_ball ((x, y, r) :: rest) = some (⌊x⌋, ⌊y⌋, ⌊r⌋) := by
  simp [Main.detect_ball, pyInt, hx, hy, hr]

/-- Witness for the amended C7 at a concrete input. -/
theorem C7_detect_truncates_witness :
    Main.detect_ball [((1 : ℚ) / 2, (3 : ℚ) / 2, (43 : ℚ) / 2)] =
      some (⌊(1 : ℚ) / 2⌋, ⌊(3 : ℚ) / 2⌋, ⌊(43 : ℚ) / 2⌋) :=
  C7_detect_truncates _ _ _ [] (by norm_num) (by norm_num) (by norm_num)

/-- Claim C8: given a computed volume v, calculate_volumetric_weight of
main.py is defined exactly when conversion_factor is set, and when set to
f it returns v * f. -/
theorem C8_weight_iff_factor (s : Main.BallState) (v : ℝ) :
    ((Main.calculate_volumetric_weight s (some v)).isSome
      = s.conversion_factor.isSome)
    ∧ ∀ f : ℚ, s.conversion_factor = some f →
        Main.calculate_volumetric_weight s (some v) =
          some (v * (f : ℝ)) := by
  constructor
  · cases hf : s.conversion_factor <;>
      simp [Main.calculate_volumetric_weight, hf]
  · intro f hf
    simp [Main.calculate_volumetric_weight, hf]

/-- Witness for C8 at a concrete input: factor 3, volume 5, weight
5 * 3. -/
theorem C8_weight_iff_factor_witness :
    Main.calculate_volumetric_weight
        { calibration_ratio := some 2, real_diameter := none
          conversion_factor := some 3 } (some 5) =
      some ((5 : ℝ) * ((3 : ℚ) : ℝ)) :=
  (C8_weight_iff_factor _ 5).2 3 rfl

/-- Claim C9: for a fixed set ratio k > 0, the volume computed by main.py
is strictly increasing in the pixel diameter on nonnegative diameters. -/
theorem C9_volume_strict_mono (s : Main.BallState) (k d1 d2 : ℚ)
    (v1 v2 : ℝ) (hk : s.calibration_ratio = some k) (hkpos : 0 < k)
    (h1 : 0 ≤ d1) (h12 : d1 < d2)
    (hv1 : Main.calculate_volume s d1 = .ok (some v1))
    (hv2 : Main.calculate_volume s d2 = .ok (some v2)) :
    v1 < v2 := by
  have hk0 : k ≠ 0 := hkpos.ne'
  simp only [Main.calculate_volume, hk, if_neg hk0, Except.ok.injEq,
    Option.some.injEq] at hv1 hv2
  have hkR : (0 : ℝ) < (k : ℝ) := by exact_mod_cast hkpos
  have hdR : ((d1 : ℚ) : ℝ) < ((d2 : ℚ) : ℝ) := by exact_mod_cast h12
  have hd0 : (0 : ℝ) ≤ ((d1 : ℚ) : ℝ) := by exact_mod_cast h1
  have hbase : ((d1 : ℚ) : ℝ) / (k : ℝ) / 2 / 10
      < ((d2 : ℚ) : ℝ) / (k : ℝ) / 2 / 10 := by gcongr
  have hbase0 : (0 : ℝ) ≤ ((d1 : ℚ) : ℝ) / (k : ℝ) / 2 / 10 := by
    positivity
  have hpow : (((d1 : ℚ) : ℝ) / (k : ℝ) / 2 / 10) ^ 3
      < (((d2 : ℚ) : ℝ) / (k : ℝ) / 2 / 10) ^ 3 :=
    pow_lt_pow_left₀ hbase hbase0 (by norm_num)
  have hc : (0 : ℝ) < (4 / 3) * Real.pi := by positivity
  rw [← hv1, ← hv2]
  exact mul_lt_mul_of_pos_left hpow hc

/-- Witness for C9 at a concrete input: ratio 1, diameters 0 and 20. -/
theorem C9_volume_strict_mono_witness :
    (4 / 3) * Real.pi * ((((0 : ℚ) : ℝ) / ((1 : ℚ) : ℝ) / 2 / 10) ^ 3)
      < (4 / 3) * Real.pi
        * ((((20 : ℚ) : ℝ) / ((1 : ℚ) : ℝ) / 2 / 10) ^ 3) :=
  C9_volume_strict_mono
    { calibration_ratio := some 1, real_diameter := none
      conversion_factor := none } 1 0 20 _ _ rfl (by norm_num)
    (by norm_num) (by norm_num)
    (by simp [Main.calculate_volume])
    (by simp [Main.calculate_volume])

/-- Claim C10: with the same ratio value k in all three variants, the
volume computations agree: main.py and fullscreen-main.py return the same
result, and both return exactly the value of raspi_main.py (wrapped in
some, since the raspi variant has no None case). -/
theorem C10_variants_agree (d k : ℚ) (s1 : Main.BallState)
    (s2 : Fullscreen.BallState) (s3 : Raspi.BallState)
    (h1 : s1.calibration_ratio = some k)
    (h2 : s2.calibration_ratio = some k)
    (h3 : s3.calibration_ratio = k) :
    Main.calculate_volume s1 d
        = Except.map Option.some (Raspi.calculate_volume s3 d)
    ∧ Fullscreen.calculate_volume s2 d = Main.calculate_volume s1 d := by
  by_cases h0 : k = 0
  · subst h0
    constructor <;>
      simp [Main.calculate_volume, Fullscreen.calculate_volume,
        Raspi.calculate_volume, h1, h2, h3, Except.map]
  · constructor <;>
      simp [Main.calculate_volume, Fullscreen.calculate_volume,
        Raspi.calculate_volume, h1, h2, h3, h0, Except.map]

/-- Witness for C10 at a concrete input: ratio 2 in all variants, pixel
diameter 4. -/
theorem C10_variants_agree_witness :
    Main.calculate_volume
        { calibration_ratio := some 2, real_diameter := none
          conversion_factor := none } 4
      = Except.map Option.some
          (Raspi.calculate_volume
            { calibration_ratio := 2, conversion_factor := 9 } 4)
    ∧ Fullscreen.calculate_volume
        { calibration_ratio := some 2, real_diameter := none } 4
      = Main.calculate_volume
          { calibration_ratio := some 2, real_diameter := none
            conversion_factor := none } 4 :=
  C10_variants_agree 4 2 _ _ _ rfl rfl rfl

end BallVision
